import Mathlib

/-!
Verification of the NotificationService repository.

Shallow embedding of the three source files:
  * src/main.py — the WebSocket `ConnectionManager` (registry + broadcast);
  * src/routers/notifications.py — the notification producers (create,
    mark-as-read, mark-as-done, mark-all-as-read) over a modelled store;
  * src/routers/email_notifications.py — order-cost breakdown and the two
    e-mail endpoints.

Python floats are modelled as exact rationals (ℚ); Python exceptions are
modelled with `Except`; the database is an explicit state value threaded
through each handler, with a boolean oracle deciding whether the persisted
mutation (execute + commit) succeeds.
-/

namespace NotificationService

/-- A WebSocket connection handle; identity (pointer equality) is all the
code uses, so an abstract numeric handle suffices. -/
abbrev Conn := Nat

/-- Embedding of `ConnectionManager` (src/main.py, lines 21-52).
`active_connections` is a Python `set`; we model it as a duplicate-free
list so that iteration order is explicit. -/
structure Manager where
  active : List Conn
deriving DecidableEq

/-- Embedding of `ConnectionManager.connect` (main.py line 25): `set.add`
inserts the handle unless already present.  The `websocket.accept()`
transport call has no registry effect and is elided. -/
def connect (m : Manager) (c : Conn) : Manager :=
  if c ∈ m.active then m else ⟨m.active ++ [c]⟩

/-- Embedding of `ConnectionManager.disconnect` (main.py line 30):
`set.discard` removes the handle and is a no-op when absent. -/
def disconnect (m : Manager) (c : Conn) : Manager :=
  ⟨m.active.erase c⟩

/-- Loop body of the broadcast fan-out (main.py lines 41-46): one send per
connection inside `try/except`; the state is the trace of send attempts
(connection, did-the-send-succeed) together with the `disconnected` set
collected so far (as a list in iteration order). -/
def broadcastStep (sendRes : Conn → Except String Unit)
    (st : List (Conn × Bool) × List Conn) (c : Conn) :
    List (Conn × Bool) × List Conn :=
  match sendRes c with
  | Except.ok _ => (st.1 ++ [(c, true)], st.2)
  | Except.error _ => (st.1 ++ [(c, false)], st.2 ++ [c])

/-- Embedding of `ConnectionManager.broadcast` (main.py lines 34-52).
`sendRes` gives the `send_json` outcome of each connection (`Except.error` is a
raised exception, caught by the per-connection handler).  The outer
`Except` is the exception channel of the handler itself: an `Except.error` result
would mean an exception escaping `broadcast` to its caller.  Returns the
manager after pruning together with the trace of send attempts. -/
def broadcast (m : Manager) (sendRes : Conn → Except String Unit) :
    Except String (Manager × List (Conn × Bool)) :=
  if m.active.isEmpty then
    Except.ok (m, [])
  else
    let st := m.active.foldl (broadcastStep sendRes) ([], [])
    let after := st.2.foldl disconnect m
    Except.ok (after, st.1)

/-- Whether the send to a connection succeeds. -/
def sendOk (sendRes : Conn → Except String Unit) (c : Conn) : Bool :=
  match sendRes c with
  | Except.ok _ => true
  | Except.error _ => false

lemma broadcastStep_foldl (sendRes : Conn → Except String Unit) :
    ∀ (l : List Conn) (a : List (Conn × Bool)) (d : List Conn),
      l.foldl (broadcastStep sendRes) (a, d) =
        (a ++ l.map (fun c => (c, sendOk sendRes c)),
         d ++ l.filter (fun c => !(sendOk sendRes c))) := by
  intro l
  induction l with
  | nil => intro a d; simp
  | cons c l ih =>
    intro a d
    cases h : sendRes c with
    | ok u =>
      simp [List.foldl_cons, broadcastStep, h, ih, sendOk]
    | error e =>
      simp [List.foldl_cons, broadcastStep, h, ih, sendOk]

lemma foldl_disconnect (ds : List Conn) (m : Manager) :
    ds.foldl disconnect m = ⟨m.active.diff ds⟩ := by
  induction ds generalizing m with
  | nil => simp [List.diff]
  | cons d ds ih => simp [List.foldl_cons, disconnect, ih, List.diff_cons]

lemma diff_filter_not (l ds : List Conn) (p : Conn → Bool) (h : l.Nodup)
    (hds : ds = l.filter (fun c => !(p c))) :
    l.diff ds = l.filter p := by
  rw [h.diff_eq_filter, hds]
  refine List.filter_congr ?_
  intro c hc
  by_cases hp : p c = true
  · simp [List.mem_filter, hp, hc]
  · simp [List.mem_filter, hp, hc, Bool.not_eq_true]

/-- Closed form of `broadcast` on a duplicate-free registry: the attempts
trace tries each member once in order, and the surviving registry is
exactly the members whose send succeeded. -/
lemma broadcast_closed (m : Manager) (sendRes : Conn → Except String Unit)
    (h : m.active.Nodup) :
    broadcast m sendRes =
      Except.ok (⟨m.active.filter (fun c => sendOk sendRes c)⟩,
        m.active.map (fun c => (c, sendOk sendRes c))) := by
  cases m with
  | mk l =>
    by_cases hl : l = []
    · subst hl; simp [broadcast]
    · simp only [broadcast, List.isEmpty_iff, hl, if_false]
      rw [broadcastStep_foldl, foldl_disconnect]
      simp only [List.nil_append]
      rw [diff_filter_not l _ _ h rfl]

/-- An operation on the registry: a client attaching (`connect`) or
detaching (`disconnect`). -/
inductive RegOp where
  | add (c : Conn)
  | remove (c : Conn)
deriving DecidableEq

/-- Apply one registry operation. -/
def applyOp (m : Manager) : RegOp → Manager
  | RegOp.add c => connect m c
  | RegOp.remove c => disconnect m c

/-- Run a sequence of registry operations. -/
def runOps (ops : List RegOp) (m : Manager) : Manager :=
  ops.foldl applyOp m

/-- Spec-side definition, following the words of the claim: the set of added
connections (deduplicated, in order of first add). -/
def addedConns (ops : List RegOp) : List Conn :=
  (ops.filterMap (fun op => match op with
    | RegOp.add c => some c
    | RegOp.remove _ => none)).dedup

/-- Spec-side definition, following the words of the claim: the set of removed
connections. -/
def removedConns (ops : List RegOp) : List Conn :=
  (ops.filterMap (fun op => match op with
    | RegOp.add _ => none
    | RegOp.remove c => some c)).dedup

/-- Spec-side definition, following the words of the claim: the
predicted final membership, the set of added connections minus the
removed ones. -/
def claimedFinal (ops : List RegOp) : List Conn :=
  (addedConns ops).filter (fun c => !((removedConns ops).contains c))

/-- The actual per-connection membership computed by the code after a sequence of
operations: `c` is a member at the end exactly when the last operation
mentioning `c` is an add (starting from the given initial membership). -/
def lastOpKeeps (ops : List RegOp) (c : Conn) (init : Bool) : Bool :=
  ops.foldl (fun b op => match op with
    | RegOp.add a => if a = c then true else b
    | RegOp.remove a => if a = c then false else b) init

lemma connect_active (m : Manager) (c : Conn) :
    (connect m c).active = if c ∈ m.active then m.active else m.active ++ [c] := by
  by_cases h : c ∈ m.active <;> simp [connect, h]

lemma connect_nodup (m : Manager) (c : Conn) (h : m.active.Nodup) :
    (connect m c).active.Nodup := by
  by_cases hc : c ∈ m.active
  · simpa [connect, hc] using h
  · simp only [connect, hc, if_false]
    simpa using List.Nodup.append h (List.nodup_singleton c)
      (by simpa using hc)

lemma disconnect_nodup (m : Manager) (c : Conn) (h : m.active.Nodup) :
    (disconnect m c).active.Nodup := by
  simpa [disconnect] using h.erase c

lemma runOps_nodup (ops : List RegOp) (m : Manager) (h : m.active.Nodup) :
    (runOps ops m).active.Nodup := by
  induction ops generalizing m with
  | nil => simpa [runOps]
  | cons op ops ih =>
    cases op with
    | add c => exact ih (connect m c) (connect_nodup m c h)
    | remove c => exact ih (disconnect m c) (disconnect_nodup m c h)

lemma mem_connect (m : Manager) (a c : Conn) :
    c ∈ (connect m a).active ↔ (a = c ∨ c ∈ m.active) := by
  by_cases h : a ∈ m.active
  · simp only [connect, h, if_true]
    constructor
    · exact Or.inr
    · rintro (rfl | hc)
      · exact h
      · exact hc
  · simp only [connect, h, if_false, List.mem_append, List.mem_singleton]
    tauto

lemma mem_disconnect (m : Manager) (a c : Conn) (h : m.active.Nodup) :
    c ∈ (disconnect m a).active ↔ (a ≠ c ∧ c ∈ m.active) := by
  simp only [disconnect]
  rw [h.erase_eq_filter, List.mem_filter]
  simp [ne_comm, and_comm]

lemma runOps_mem (ops : List RegOp) (m : Manager) (c : Conn)
    (h : m.active.Nodup) :
    c ∈ (runOps ops m).active ↔ lastOpKeeps ops c (decide (c ∈ m.active)) = true := by
  induction ops generalizing m with
  | nil => simp [runOps, lastOpKeeps]
  | cons op ops ih =>
    cases op with
    | add a =>
      have := ih (connect m a) (connect_nodup m a h)
      simp only [runOps, List.foldl_cons, applyOp, lastOpKeeps] at this ⊢
      rw [this]
      by_cases ha : a = c
      · subst ha
        simp [mem_connect]
      · simp only [ha, if_false]
        have : decide (c ∈ (connect m a).active) = decide (c ∈ m.active) := by
          simp [mem_connect, ha]
        rw [this]
    | remove a =>
      have := ih (disconnect m a) (disconnect_nodup m a h)
      simp only [runOps, List.foldl_cons, applyOp, lastOpKeeps] at this ⊢
      rw [this]
      by_cases ha : a = c
      · subst ha
        simp [mem_disconnect _ _ _ h]
      · simp only [ha, if_false]
        have : decide (c ∈ (disconnect m a).active) = decide (c ∈ m.active) := by
          simp [mem_disconnect _ _ _ h, ha]
        rw [this]

/-- A row of the `Notifications` table (src/routers/notifications.py,
pydantic model `NotificationBase`, lines 17-23). -/
structure Notif where
  id : Int
  saleId : Option Int
  message : String
  createdAt : String
  isRead : Bool
  isDone : Bool
deriving DecidableEq

/-- The notification store: the rows of the `Notifications` table. -/
abbrev Store := List Notif

/-- An HTTP error (`HTTPException`): status code and detail string.  For
500 details that interpolate the text of the caught exception, only the
fixed leading part is modelled. -/
structure HErr where
  statusCode : Nat
  detail : String
deriving DecidableEq

/-- A broadcast event, one constructor per dict literal handed to
`manager.broadcast` in src/routers/notifications.py. -/
inductive Event where
  | newNotification (n : Notif)
  | notificationRead (id : Int)
  | notificationDone (id : Int)
  | notificationsReadAll
deriving DecidableEq

/-- A JSON value (only the fragment the event dicts use). -/
inductive JVal where
  | str (s : String)
  | int (n : Int)
  | bool (b : Bool)
  | null
  | obj (fields : List (String × JVal))

/-- JSON object for a notification row, mirroring the `notification_data`
dict (notifications.py lines 60-63). -/
def notifJson (n : Notif) : JVal :=
  JVal.obj [("NotificationID", JVal.int n.id),
    ("SaleID", match n.saleId with
      | some s => JVal.int s
      | none => JVal.null),
    ("Message", JVal.str n.message),
    ("CreatedAt", JVal.str n.createdAt),
    ("IsRead", JVal.bool n.isRead),
    ("IsDone", JVal.bool n.isDone)]

/-- The JSON object sent over the wire for each event, field list in dict
order, mirroring the four dict literals passed to `manager.broadcast`. -/
def eventObj : Event → List (String × JVal)
  | Event.newNotification n =>
      [("type", JVal.str "new_notification"), ("payload", notifJson n)]
  | Event.notificationRead i =>
      [("type", JVal.str "notification_read"),
       ("payload", JVal.obj [("NotificationID", JVal.int i)])]
  | Event.notificationDone i =>
      [("type", JVal.str "notification_done"),
       ("payload", JVal.obj [("NotificationID", JVal.int i)])]
  | Event.notificationsReadAll =>
      [("type", JVal.str "notifications_read_all")]

/-- Embedding of `create_notification` (notifications.py lines 41-73).
The database assigns `NotificationID` and `CreatedAt`; both are inputs
here (`newId`, `createdAt`), as is `mutOk`, whether the INSERT + commit
succeeds.  `IsRead`/`IsDone` default to false on insert.  On failure the
transaction is not committed, so the store is unchanged, no broadcast
happens, and the caller gets a 500. -/
def create_notification (db : Store) (mutOk : Bool) (newId : Int)
    (saleId : Int) (message createdAt : String) :
    Except HErr Notif × Store × List Event :=
  if mutOk then
    let n : Notif := ⟨newId, some saleId, message, createdAt, false, false⟩
    (Except.ok n, db ++ [n], [Event.newNotification n])
  else
    (Except.error ⟨500, "Internal server error while creating notification."⟩,
     db, [])

/-- Embedding of `mark_as_read` (notifications.py lines 112-141): SELECT
the row; absent → 404 before any UPDATE or broadcast; present → UPDATE
`IsRead = 1` and commit (success governed by `mutOk`), then broadcast one
`notification_read` event. -/
def mark_as_read (db : Store) (mutOk : Bool) (notifId : Int) :
    Except HErr String × Store × List Event :=
  match db.find? (fun n => n.id == notifId) with
  | none => (Except.error ⟨404, "Notification not found."⟩, db, [])
  | some _ =>
    if mutOk then
      (Except.ok "Notification marked as read.",
       db.map (fun n => if n.id = notifId then { n with isRead := true } else n),
       [Event.notificationRead notifId])
    else
      (Except.error ⟨500, "Failed to mark notification as read: "⟩, db, [])

/-- Embedding of `mark_as_done` (notifications.py lines 143-164): UPDATE
`IsDone = 1, IsRead = 1` on the row (success governed by `mutOk`); a zero
rowcount → 404 with no broadcast (the UPDATE matched nothing, so the
store is unchanged); otherwise broadcast one `notification_done` event. -/
def mark_as_done (db : Store) (mutOk : Bool) (notifId : Int) :
    Except HErr String × Store × List Event :=
  if mutOk then
    if (db.filter (fun n => n.id == notifId)).isEmpty then
      (Except.error ⟨404, "Notification not found."⟩, db, [])
    else
      (Except.ok "Notification marked as done.",
       db.map (fun n => if n.id = notifId then
         { n with isDone := true, isRead := true } else n),
       [Event.notificationDone notifId])
  else
    (Except.error ⟨500, "Failed to mark notification as done: "⟩, db, [])

/-- Embedding of `mark_all_as_read` (notifications.py lines 166-183):
UPDATE `IsRead = 1` on every unread row (success governed by `mutOk`),
then broadcast one `notifications_read_all` event. -/
def mark_all_as_read (db : Store) (mutOk : Bool) :
    Except HErr String × Store × List Event :=
  if mutOk then
    (Except.ok "All notifications marked as read.",
     db.map (fun n => if n.isRead then n else { n with isRead := true }),
     [Event.notificationsReadAll])
  else
    (Except.error ⟨500, "Failed to mark all as read: "⟩, db, [])

/-- Embedding of Python `str.lower()` (ASCII case folding, which is all
the compared literals use). -/
def pyLower (s : String) : String :=
  s.map Char.toLower

/-- Embedding of `DELIVERY_FEE` (email_notifications.py line 27). -/
def DELIVERY_FEE : ℚ := 50

/-- Pydantic model `AddonItem` (email_notifications.py lines 30-33). -/
structure AddonItem where
  addon_id : Int
  addon_name : String
  price : ℚ
deriving DecidableEq

/-- Pydantic model `OrderItem` (email_notifications.py lines 35-43). -/
structure OrderItem where
  name : String
  quantity : Int
  price : ℚ
  addons : List AddonItem
  promo_name : Option String
  promo_type : Option String
  promo_value : Option ℚ
  promo_discount : Option ℚ
deriving DecidableEq

/-- Pydantic model `EmailNotificationRequest` (email_notifications.py
lines 45-60); extra fields are ignored by the model config and so do not
appear. -/
structure EmailNotificationRequest where
  customer_id : Option Int
  customer_name : String
  customer_email : Option String
  order_id : String
  order_type : String
  status : String
  items : List OrderItem
  total : ℚ
  payment_method : String
  delivery_address : Option String
  phone_number : Option String
  reference_number : Option String
  delivery_fee : Option ℚ
deriving DecidableEq

/-- The dict returned by `calculate_order_breakdown`. -/
structure Breakdown where
  subtotal : ℚ
  addons_total : ℚ
  discount_total : ℚ
  delivery_fee : ℚ
  final_total : ℚ
  is_delivery : Bool
deriving DecidableEq

/-- Loop body of the item loop in `calculate_order_breakdown`
(email_notifications.py lines 120-131), accumulating
(subtotal, addons_total, discount_total).  The Python guard
`item.promo_discount and item.promo_discount > 0` (truthiness of 0.0 plus
the comparison) collapses to the strict comparison. -/
def itemStep (acc : ℚ × ℚ × ℚ) (item : OrderItem) : ℚ × ℚ × ℚ :=
  let sub := acc.1 + item.price * (item.quantity : ℚ)
  let adds := item.addons.foldl (fun a ad => a + ad.price) acc.2.1
  let disc := match item.promo_discount with
    | some d => if 0 < d then acc.2.2 + d else acc.2.2
    | none => acc.2.2
  (sub, adds, disc)

/-- Embedding of `calculate_order_breakdown` (email_notifications.py
lines 114-152), with floats as exact rationals. -/
def calculate_order_breakdown (data : EmailNotificationRequest) : Breakdown :=
  let totals := data.items.foldl itemStep (0, 0, 0)
  let is_delivery : Bool := pyLower data.order_type == "delivery"
  let delivery_fee : ℚ := match data.delivery_fee with
    | some f => f
    | none => if is_delivery then DELIVERY_FEE else 0
  let final_total := totals.1 + totals.2.1 + delivery_fee - totals.2.2
  { subtotal := totals.1
    addons_total := totals.2.1
    discount_total := totals.2.2
    delivery_fee := delivery_fee
    final_total := max final_total 0
    is_delivery := is_delivery }

/-- An outward call made by an e-mail endpoint: the auth-service e-mail
lookup (`fetch_user_email`) or an SMTP send (`send_email`). -/
inductive EmailAction where
  | fetchEmail (userId : Option Int) (username : String)
  | sendEmail (toEmail : String) (subject : String)
deriving DecidableEq

/-- Python truthiness of an optional string (`if not user_email`): false
for `None` and for the empty string. -/
def pyTruthy : Option String → Bool
  | none => false
  | some s => !(s == "")

/-- Embedding of Python `str.startswith`: the character sequence of the
first argument begins with that of the second. -/
def pyStartsWith (s pre : String) : Bool :=
  pre.data.isPrefixOf s.data

/-- The guard `authorization and authorization.startswith("Bearer ")`
shared by both endpoints (email_notifications.py lines 466, 535). -/
def authOk : Option String → Bool
  | none => false
  | some a => pyStartsWith a "Bearer "

/-- Shared body of `send_order_accepted_email` and
`send_order_update_email` (email_notifications.py lines 463-525 and
532-593), which differ only in subject line and response payload.  Inputs
beyond the request: the `Authorization` header, the result of the
auth-service lookup (`fetchResult`), and whether the SMTP send succeeds.  Returns the
handler outcome (`Except.ok b` — HTTP 200 with `success = b` — or an
`HTTPException`) together with the ordered list of outward calls made. -/
def sendOrderEmailCore (subject : String) (req : EmailNotificationRequest)
    (authorization : Option String) (fetchResult : Option String)
    (smtpOk : Bool) : Except HErr Bool × List EmailAction :=
  if authOk authorization then
    let acts : List EmailAction :=
      if pyTruthy req.customer_email then []
      else [EmailAction.fetchEmail req.customer_id req.customer_name]
    let userEmail : Option String :=
      if pyTruthy req.customer_email then req.customer_email else fetchResult
    if pyTruthy userEmail then
      match userEmail with
      | some em =>
        if smtpOk then
          (Except.ok true, acts ++ [EmailAction.sendEmail em subject])
        else
          (Except.error ⟨500, "Failed to send email. Check server logs."⟩,
           acts ++ [EmailAction.sendEmail em subject])
      | none => (Except.ok false, acts)
    else
      (Except.ok false, acts)
  else
    (Except.error ⟨401, "Missing or invalid authorization header"⟩, [])

/-- Embedding of the `/email/send-order-accepted` endpoint. -/
def send_order_accepted_email (req : EmailNotificationRequest)
    (authorization : Option String) (fetchResult : Option String)
    (smtpOk : Bool) : Except HErr Bool × List EmailAction :=
  sendOrderEmailCore "Order Accepted - Bleu Bean Cafe" req authorization
    fetchResult smtpOk

/-- Embedding of the `/email/send-order-update` endpoint. -/
def send_order_update_email (req : EmailNotificationRequest)
    (authorization : Option String) (fetchResult : Option String)
    (smtpOk : Bool) : Except HErr Bool × List EmailAction :=
  sendOrderEmailCore ("Order Update: " ++ req.status ++ " - Bleu Bean Cafe")
    req authorization fetchResult smtpOk

/-- The discount one line item contributes: its `promo_discount` when
present and strictly positive, else nothing. -/
def promoDisc (i : OrderItem) : ℚ :=
  match i.promo_discount with
  | some d => if 0 < d then d else 0
  | none => 0

lemma foldl_add_price (l : List AddonItem) (b : ℚ) :
    l.foldl (fun a ad => a + ad.price) b = b + (l.map (fun ad => ad.price)).sum := by
  induction l generalizing b with
  | nil => simp
  | cons ad l ih => simp [List.foldl_cons, ih, add_assoc]

lemma itemStep_foldl :
    ∀ (items : List OrderItem) (a b c : ℚ),
      items.foldl itemStep (a, b, c) =
        (a + (items.map (fun i => i.price * (i.quantity : ℚ))).sum,
         b + (items.map (fun i => (i.addons.map (fun ad => ad.price)).sum)).sum,
         c + (items.map promoDisc).sum) := by
  intro items
  induction items with
  | nil => intro a b c; simp
  | cons i items ih =>
    intro a b c
    simp only [List.foldl_cons, itemStep, List.map_cons, List.sum_cons]
    rw [foldl_add_price, ih]
    rcases hpd : i.promo_discount with _ | d
    · simp [promoDisc, hpd, add_assoc]
    · by_cases h0 : (0 : ℚ) < d <;> simp [promoDisc, hpd, h0, add_assoc]

/-- Claim C1: `broadcast(event)` attempts to send to each registry member
at most once (no retry within the call); every member whose send succeeds
receives the event and remains registered; every member whose send fails
is removed before the call returns and is absent from the attempts of
every subsequent broadcast. -/
theorem C1_broadcast_at_most_once_prunes_failed (m : Manager)
    (sendRes : Conn → Except String Unit) (h : m.active.Nodup) :
    ∃ after attempts,
      broadcast m sendRes = Except.ok (after, attempts) ∧
      attempts.map Prod.fst = m.active ∧
      (attempts.map Prod.fst).Nodup ∧
      (∀ c, c ∈ m.active → sendOk sendRes c = true →
        (c, true) ∈ attempts ∧ c ∈ after.active) ∧
      (∀ c, c ∈ m.active → sendOk sendRes c = false → c ∉ after.active) ∧
      (∀ sendRes2 after2 attempts2,
        broadcast after sendRes2 = Except.ok (after2, attempts2) →
        ∀ c, c ∈ m.active → sendOk sendRes c = false →
          ∀ b, (c, b) ∉ attempts2) := by
  refine ⟨⟨m.active.filter (fun c => sendOk sendRes c)⟩,
    m.active.map (fun c => (c, sendOk sendRes c)),
    broadcast_closed m sendRes h, ?_, ?_, ?_, ?_, ?_⟩
  · have hid : (Prod.fst ∘ fun c : Conn => (c, sendOk sendRes c)) = id := rfl
    rw [List.map_map, hid, List.map_id]
  · rw [List.map_map]
    have hid : (Prod.fst ∘ fun c : Conn => (c, sendOk sendRes c)) = id := rfl
    rw [hid, List.map_id]
    exact h
  · intro c hc hok
    constructor
    · exact List.mem_map.mpr ⟨c, hc, by rw [hok]⟩
    · exact List.mem_filter.mpr ⟨hc, by simp [hok]⟩
  · intro c hc hfail hmem
    have := (List.mem_filter.mp hmem).2
    simp [hfail] at this
  · intro sendRes2 after2 attempts2 hb c hc hfail b hmem
    have hnd : (m.active.filter (fun c => sendOk sendRes c)).Nodup := h.filter _
    rw [broadcast_closed _ sendRes2 hnd] at hb
    have h2 : attempts2 =
        (m.active.filter (fun c => sendOk sendRes c)).map
          (fun c => (c, sendOk sendRes2 c)) := by
      have := (Except.ok.injEq _ _).mp hb
      exact (Prod.mk.injEq _ _ _ _).mp this |>.2.symm
    rw [h2] at hmem
    obtain ⟨c', hc', hcc⟩ := List.mem_map.mp hmem
    have : c' = c := congrArg Prod.fst hcc
    subst this
    have := (List.mem_filter.mp hc').2
    simp [hfail] at this

/-- Witness for C1 at a concrete two-member registry where the
send to connection 2 fails. -/
theorem C1_witness :
    ((⟨[1, 2]⟩ : Manager).active.Nodup) ∧
    (∃ after attempts,
      broadcast ⟨[1, 2]⟩
          (fun c => if c = 2 then Except.error "boom" else Except.ok ()) =
        Except.ok (after, attempts) ∧
      attempts.map Prod.fst = (⟨[1, 2]⟩ : Manager).active ∧
      (attempts.map Prod.fst).Nodup ∧
      (∀ c, c ∈ (⟨[1, 2]⟩ : Manager).active →
        sendOk (fun c => if c = 2 then Except.error "boom" else Except.ok ()) c
          = true → (c, true) ∈ attempts ∧ c ∈ after.active) ∧
      (∀ c, c ∈ (⟨[1, 2]⟩ : Manager).active →
        sendOk (fun c => if c = 2 then Except.error "boom" else Except.ok ()) c
          = false → c ∉ after.active) ∧
      (∀ sendRes2 after2 attempts2,
        broadcast after sendRes2 = Except.ok (after2, attempts2) →
        ∀ c, c ∈ (⟨[1, 2]⟩ : Manager).active →
        sendOk (fun c => if c = 2 then Except.error "boom" else Except.ok ()) c
          = false → ∀ b, (c, b) ∉ attempts2)) :=
  ⟨by decide,
   C1_broadcast_at_most_once_prunes_failed ⟨[1, 2]⟩
     (fun c => if c = 2 then Except.error "boom" else Except.ok ()) (by decide)⟩

/-- Claim C2: `broadcast` never raises to its caller whatever the
per-connection send outcomes are, and on an empty registry it returns
successfully, attempts no send, and leaves the registry unchanged. -/
theorem C2_broadcast_never_raises (sendRes : Conn → Except String Unit) :
    (∀ m : Manager, ∃ r, broadcast m sendRes = Except.ok r) ∧
    broadcast ⟨[]⟩ sendRes = Except.ok (⟨[]⟩, []) := by
  constructor
  · intro m
    unfold broadcast
    by_cases hm : m.active.isEmpty <;> simp [hm]
  · rfl

/-- Counterexample to C3 as stated: for the operation sequence
[add 0, remove 0, add 0] the final membership is {0}, while the set of
added connections minus the removed ones is empty. -/
theorem C3_counterexample :
    (runOps [RegOp.add 0, RegOp.remove 0, RegOp.add 0] ⟨[]⟩).active = [0] ∧
    claimedFinal [RegOp.add 0, RegOp.remove 0, RegOp.add 0] = [] := by
  decide

/-- Claim C3 (amended): registry membership never contains duplicates,
removing an absent connection is a no-op, and a connection is in the
final membership exactly when the last add/remove operation that mentions
it is an add (rather than membership equalling adds minus removes, which
ignores operation order). -/
theorem C3_registry_set_semantics :
    (∀ ops : List RegOp, (runOps ops ⟨[]⟩).active.Nodup) ∧
    (∀ (m : Manager) (c : Conn), c ∉ m.active → disconnect m c = m) ∧
    (∀ (ops : List RegOp) (c : Conn),
      c ∈ (runOps ops ⟨[]⟩).active ↔ lastOpKeeps ops c false = true) := by
  refine ⟨fun ops => runOps_nodup ops ⟨[]⟩ (by simp), ?_, ?_⟩
  · intro m c hc
    cases m with
    | mk l => simp only [disconnect] at hc ⊢
              rw [List.erase_of_not_mem hc]
  · intro ops c
    have := runOps_mem ops ⟨[]⟩ c (by simp)
    simpa using this

/-- Witness for C3 (amended) at concrete inputs. -/
theorem C3_witness :
    ((0 : Conn) ∉ (⟨[1]⟩ : Manager).active ∧ disconnect ⟨[1]⟩ 0 = ⟨[1]⟩) ∧
    (runOps [RegOp.add 5, RegOp.remove 5, RegOp.add 5] ⟨[]⟩).active.Nodup ∧
    ((5 : Conn) ∈ (runOps [RegOp.add 5, RegOp.remove 5, RegOp.add 5] ⟨[]⟩).active ↔
      lastOpKeeps [RegOp.add 5, RegOp.remove 5, RegOp.add 5] 5 false = true) :=
  ⟨⟨by decide, C3_registry_set_semantics.2.1 ⟨[1]⟩ 0 (by decide)⟩,
   C3_registry_set_semantics.1 _,
   C3_registry_set_semantics.2.2 _ _⟩

/-- Claim C4: `markRead(id)` on an id absent from the store returns a
404 not-found error, emits zero events (the not-found is signaled before
any broadcast attempt), and leaves the store unchanged — whatever the
mutation oracle says, since the UPDATE is never reached. -/
theorem C4_mark_as_read_not_found (db : Store) (mutOk : Bool) (i : Int)
    (h : ∀ n ∈ db, n.id ≠ i) :
    mark_as_read db mutOk i =
      (Except.error ⟨404, "Notification not found."⟩, db, []) := by
  have hf : db.find? (fun n => n.id == i) = none := by
    rw [List.find?_eq_none]
    intro n hn
    simpa using h n hn
  simp [mark_as_read, hf]

/-- Witness for C4 on a one-row store and a missing id. -/
theorem C4_witness :
    (∀ n ∈ ([⟨5, some 1, "msg", "ts", false, false⟩] : Store), n.id ≠ 7) ∧
    mark_as_read [⟨5, some 1, "msg", "ts", false, false⟩] true 7 =
      (Except.error ⟨404, "Notification not found."⟩,
       [⟨5, some 1, "msg", "ts", false, false⟩], []) :=
  ⟨by decide, C4_mark_as_read_not_found _ true 7 (by decide)⟩

/-- Claim C5: for each producer, a failed persisted mutation yields an
error to the caller with no event broadcast and no store change; in
particular no event is ever emitted without a committed mutation. -/
theorem C5_persistence_failure_no_event :
    (∀ (db : Store) (newId saleId : Int) (msg ts : String),
      create_notification db false newId saleId msg ts =
        (Except.error
           ⟨500, "Internal server error while creating notification."⟩,
         db, [])) ∧
    (∀ (db : Store) (i : Int), ∃ e : HErr,
      mark_as_read db false i = (Except.error e, db, [])) ∧
    (∀ (db : Store) (i : Int),
      mark_as_done db false i =
        (Except.error ⟨500, "Failed to mark notification as done: "⟩,
         db, [])) ∧
    (∀ db : Store,
      mark_all_as_read db false =
        (Except.error ⟨500, "Failed to mark all as read: "⟩, db, [])) := by
  refine ⟨?_, ?_, ?_, ?_⟩
  · intro db newId saleId msg ts
    simp [create_notification]
  · intro db i
    cases hf : db.find? (fun n => n.id == i) with
    | none =>
      exact ⟨⟨404, "Notification not found."⟩, by simp [mark_as_read, hf]⟩
    | some n =>
      exact ⟨⟨500, "Failed to mark notification as read: "⟩,
        by simp [mark_as_read, hf]⟩
  · intro db i
    simp [mark_as_done]
  · intro db
    simp [mark_all_as_read]

/-- Claim C6: `markDone(id)` on a present id succeeds, sets both `IsDone`
and `IsRead` on that row while mapping every other row to itself, and
emits exactly one `notification_done` event whose payload is
{NotificationID: id}. -/
theorem C6_mark_as_done_sets_both_flags (db : Store) (i : Int)
    (h : ∃ n ∈ db, n.id = i) :
    (mark_as_done db true i).1 = Except.ok "Notification marked as done." ∧
    (mark_as_done db true i).2.2 = [Event.notificationDone i] ∧
    eventObj (Event.notificationDone i) =
      [("type", JVal.str "notification_done"),
       ("payload", JVal.obj [("NotificationID", JVal.int i)])] ∧
    (mark_as_done db true i).2.1 =
      db.map (fun n => if n.id = i then
        { n with isDone := true, isRead := true } else n) := by
  obtain ⟨n, hn, hid⟩ := h
  have hmem : n ∈ db.filter (fun n => n.id == i) :=
    List.mem_filter.mpr ⟨hn, by simp [hid]⟩
  have hne : (db.filter (fun n => n.id == i)).isEmpty = false := by
    rcases hf : db.filter (fun n => n.id == i) with _ | ⟨x, xs⟩
    · rw [hf] at hmem; cases hmem
    · rw [hf]; rfl
  refine ⟨by simp [mark_as_done, hne], by simp [mark_as_done, hne], rfl,
    by simp [mark_as_done, hne]⟩

/-- Witness for C6 at a concrete one-row store holding id 5. -/
theorem C6_witness :
    (∃ n ∈ ([⟨5, some 1, "msg", "ts", false, false⟩] : Store), n.id = 5) ∧
    ((mark_as_done [⟨5, some 1, "msg", "ts", false, false⟩] true 5).1 =
        Except.ok "Notification marked as done." ∧
      (mark_as_done [⟨5, some 1, "msg", "ts", false, false⟩] true 5).2.2 =
        [Event.notificationDone 5] ∧
      eventObj (Event.notificationDone 5) =
        [("type", JVal.str "notification_done"),
         ("payload", JVal.obj [("NotificationID", JVal.int 5)])] ∧
      (mark_as_done [⟨5, some 1, "msg", "ts", false, false⟩] true 5).2.1 =
        ([⟨5, some 1, "msg", "ts", false, false⟩] : Store).map
          (fun n => if n.id = 5 then
            { n with isDone := true, isRead := true } else n)) :=
  ⟨⟨⟨5, some 1, "msg", "ts", false, false⟩, by decide⟩,
   C6_mark_as_done_sets_both_flags _ 5
     ⟨⟨5, some 1, "msg", "ts", false, false⟩, by decide⟩⟩

/-- Claim C7: `markAllRead()` succeeds on every store, emits exactly one
`notifications_read_all` event, whose wire object carries only the type
key; the wire object of every other event tag has exactly a type key
and a payload key. -/
theorem C7_mark_all_read_single_bare_event (db : Store) :
    (mark_all_as_read db true).1 =
      Except.ok "All notifications marked as read." ∧
    (mark_all_as_read db true).2.2 = [Event.notificationsReadAll] ∧
    (eventObj Event.notificationsReadAll).map Prod.fst = ["type"] ∧
    (∀ e : Event, e ≠ Event.notificationsReadAll →
      (eventObj e).map Prod.fst = ["type", "payload"]) := by
  refine ⟨by simp [mark_all_as_read], by simp [mark_all_as_read], rfl, ?_⟩
  intro e he
  cases e <;> simp [eventObj] at he ⊢

/-- Witness for C7 at the empty store, with `notification_read` as the
concrete other event tag. -/
theorem C7_witness :
    Event.notificationRead 3 ≠ Event.notificationsReadAll ∧
    (mark_all_as_read [] true).1 =
      Except.ok "All notifications marked as read." ∧
    (eventObj Event.notificationsReadAll).map Prod.fst = ["type"] ∧
    (eventObj (Event.notificationRead 3)).map Prod.fst =
      ["type", "payload"] :=
  ⟨by decide,
   (C7_mark_all_read_single_bare_event []).1,
   (C7_mark_all_read_single_bare_event []).2.2.1,
   (C7_mark_all_read_single_bare_event []).2.2.2
     (Event.notificationRead 3) (by decide)⟩

/-- Claim C8: with `delivery_fee` absent the computed fee is the constant
50 exactly when the order type lowercases to "delivery" and 0 otherwise;
a provided `delivery_fee` is used as-is regardless of order type. -/
theorem C8_delivery_fee_fallback (data : EmailNotificationRequest) :
    (data.delivery_fee = none →
      ((calculate_order_breakdown data).delivery_fee = 50 ↔
        pyLower data.order_type = "delivery") ∧
      (pyLower data.order_type ≠ "delivery" →
        (calculate_order_breakdown data).delivery_fee = 0)) ∧
    (∀ f : ℚ, data.delivery_fee = some f →
      (calculate_order_breakdown data).delivery_fee = f) := by
  constructor
  · intro hnone
    constructor
    · by_cases hd : pyLower data.order_type = "delivery"
      · simp [calculate_order_breakdown, hnone, hd, DELIVERY_FEE]
      · have hb : (pyLower data.order_type == "delivery") = false := by
          simpa using hd
        simp only [calculate_order_breakdown, hnone, hb, if_false,
          Bool.false_eq_true]
        constructor
        · intro h0; exact absurd h0 (by norm_num)
        · intro hcon; exact absurd hcon hd
    · intro hd
      have hb : (pyLower data.order_type == "delivery") = false := by
        simpa using hd
      simp [calculate_order_breakdown, hnone, hb]
  · intro f hf
    simp [calculate_order_breakdown, hf]

/-- Witness for C8: order type "Delivery" with no provided fee gets the
50 fallback; a provided fee of 20 is used as-is. -/
theorem C8_witness :
    ((⟨none, "Alice", none, "o1", "Delivery", "PREPARING", [], 0, "cash",
        none, none, none, none⟩ : EmailNotificationRequest).delivery_fee =
      none) ∧
    ((calculate_order_breakdown
        ⟨none, "Alice", none, "o1", "Delivery", "PREPARING", [], 0, "cash",
         none, none, none, none⟩).delivery_fee = 50 ↔
      pyLower (⟨none, "Alice", none, "o1", "Delivery", "PREPARING", [], 0,
        "cash", none, none, none, none⟩ :
          EmailNotificationRequest).order_type = "delivery") ∧
    ((⟨none, "Alice", none, "o1", "Pickup", "PREPARING", [], 0, "cash",
        none, none, none, some 20⟩ :
          EmailNotificationRequest).delivery_fee = some 20) ∧
    (calculate_order_breakdown
        ⟨none, "Alice", none, "o1", "Pickup", "PREPARING", [], 0, "cash",
         none, none, none, some 20⟩).delivery_fee = 20 :=
  ⟨rfl,
   ((C8_delivery_fee_fallback _).1 rfl).1,
   rfl,
   (C8_delivery_fee_fallback _).2 20 rfl⟩

/-- Claim C9: the final total is `max(subtotal + addons_total +
delivery_fee - discount_total, 0)` hence never negative; the subtotal
sums price times quantity, while add-on prices and positive promo
discounts are summed once per line item, never scaled by quantity. -/
theorem C9_final_total_nonneg_formula (data : EmailNotificationRequest) :
    (calculate_order_breakdown data).final_total =
      max ((calculate_order_breakdown data).subtotal +
           (calculate_order_breakdown data).addons_total +
           (calculate_order_breakdown data).delivery_fee -
           (calculate_order_breakdown data).discount_total) 0 ∧
    0 ≤ (calculate_order_breakdown data).final_total ∧
    (calculate_order_breakdown data).subtotal =
      (data.items.map (fun i => i.price * (i.quantity : ℚ))).sum ∧
    (calculate_order_breakdown data).addons_total =
      (data.items.map (fun i => (i.addons.map (fun ad => ad.price)).sum)).sum ∧
    (calculate_order_breakdown data).discount_total =
      (data.items.map promoDisc).sum := by
  have h := itemStep_foldl data.items 0 0 0
  simp only [calculate_order_breakdown, h, zero_add]
  exact ⟨by trivial, le_max_right _ _, by trivial, by trivial, by trivial⟩

/-- Claim C10: a missing `Authorization` header, or one not starting with
"Bearer ", makes both e-mail endpoints return 401 with no auth-service
lookup and no SMTP send attempted — even when the request carries a
`customer_email`. -/
theorem C10_missing_auth_rejected (req : EmailNotificationRequest)
    (auth fetchResult : Option String) (smtpOk : Bool)
    (h : authOk auth = false) :
    send_order_accepted_email req auth fetchResult smtpOk =
      (Except.error ⟨401, "Missing or invalid authorization header"⟩, []) ∧
    send_order_update_email req auth fetchResult smtpOk =
      (Except.error ⟨401, "Missing or invalid authorization header"⟩, []) := by
  constructor <;>
    simp [send_order_accepted_email, send_order_update_email,
      sendOrderEmailCore, h]

/-- Witness for C10: a malformed bearer header on a request that does
supply a customer e-mail. -/
theorem C10_witness :
    authOk (some "Token abc") = false ∧
    send_order_accepted_email
        ⟨some 1, "Alice", some "alice@example.com", "ord-1", "Delivery",
         "PREPARING", [], 0, "cash", none, none, none, none⟩
        (some "Token abc") none true =
      (Except.error ⟨401, "Missing or invalid authorization header"⟩, []) ∧
    send_order_update_email
        ⟨some 1, "Alice", some "alice@example.com", "ord-1", "Delivery",
         "PREPARING", [], 0, "cash", none, none, none, none⟩
        (some "Token abc") none true =
      (Except.error ⟨401, "Missing or invalid authorization header"⟩, []) :=
  ⟨by decide,
   (C10_missing_auth_rejected _ _ _ _ (by decide)).1,
   (C10_missing_auth_rejected _ _ _ _ (by decide)).2⟩

end NotificationService
